import Mathlib

/-!
Shallow embedding of the myGit interactive session loop (src/index.js).

The program is a single-threaded interactive loop that shells out to two
external collaborators: the version-control command surface (simple-git)
and the prompting device (inquirer).  Every call to a collaborator is
modelled by an oracle field of `Env`: an `Except Err v` value that says
what that call would return (or which error it would raise) in the run
being considered.  A handler is then a deterministic function from `Env`
to a trace of observable events (`List Ev`) together with an outcome
(`PRes`): normal return, a propagating exception, or process exit.

Chalk colouring is elided (only the text of each printed line is kept),
and the rendering of javascript objects passed as extra `console.log`
arguments is elided as well; neither affects control flow.
-/

/-- Error value as handlers see it: `message` is `err.message`; `stderr`
models `err.stderr` with `""` standing for a missing/falsy field (the JS
code tests truthiness `if (err.stderr)`); `isTtyError` models inquirer's
`err.isTtyError` flag. -/
structure Err where
  message : String
  stderr : String
  isTtyError : Bool
deriving DecidableEq

/-- Result of `git.status()` (the fields the program reads). -/
structure StatusResult where
  current : String
  tracking : String
  ahead : Nat
  behind : Nat
  modified : List String
  not_added : List String
  staged : List String
deriving DecidableEq

/-- Result of `git.branchLocal()` (the fields the program reads). -/
structure BranchSummary where
  all : List String
  current : String
deriving DecidableEq

/-- Result of `git.pull()`: the three `summary` counters the program tests. -/
structure PullSummary where
  changes : Nat
  insertions : Nat
  deletions : Nat
deriving DecidableEq

/-- A configured remote: its name and its fetch url (`r.refs.fetch`). -/
structure Remote where
  name : String
  fetch : String
deriving DecidableEq

/-- Observable events of a run: collaborator calls, prompts shown to the
user (list prompts carry the offered choices), and printed lines. -/
inductive Ev where
  | callCheckIsRepo
  | callBranch
  | callStatus
  | callAdd (path : String)
  | callCommit (msg : String)
  | callPull
  | callPush (remote : String) (branch : String)
  | callBranchLocal
  | callCheckout (branch : String)
  | callMerge (branch : String)
  | callGetRemotes
  | callAddRemote (name : String) (url : String)
  | callSetUrl (name : String) (url : String)
  | callRemoveRemote (name : String)
  | promptList (name : String) (choices : List String)
  | promptInput (name : String)
  | promptConfirm (name : String)
  | println (line : String)
deriving DecidableEq

/-- Outcome of a computation: normal value, a propagating exception, or a
`process.exit` with the given code. -/
inductive PRes (α : Type) where
  | ok : α → PRes α
  | err : Err → PRes α
  | exit : Nat → PRes α
deriving DecidableEq

/-- A computation: the trace of events it emits plus its outcome. -/
abbrev Proc (α : Type) : Type := List Ev × PRes α

/-- Sequencing: an exception or exit aborts the continuation; the traces
of both parts are concatenated on normal flow. -/
def Proc.bindP {α β : Type} (x : Proc α) (f : α → Proc β) : Proc β :=
  match x with
  | (t, PRes.ok a) => (t ++ (f a).1, (f a).2)
  | (t, PRes.err e) => (t, PRes.err e)
  | (t, PRes.exit c) => (t, PRes.exit c)

instance : Monad Proc where
  pure a := ([], PRes.ok a)
  bind := Proc.bindP

/-- Model of a javascript try/catch around `x` with handler `h`: the trace
emitted before the throw is kept, the handler's trace follows it. -/
def tryCatch {α : Type} (x : Proc α) (h : Err → Proc α) : Proc α :=
  match x with
  | (t, PRes.err e) => (t ++ (h e).1, (h e).2)
  | other => other

/-- Lift an oracle answer into an outcome. -/
def toPRes {α : Type} : Except Err α → PRes α
  | Except.ok a => PRes.ok a
  | Except.error e => PRes.err e

/-- An awaited call on the version-control collaborator: emits the call
event and returns what the oracle says. -/
def gitCall {α : Type} (ev : Ev) (r : Except Err α) : Proc α := ([ev], toPRes r)

/-- A single-line text input prompt (`inquirer` type "input"). -/
def promptInputQ (name : String) (ans : Except Err String) : Proc String :=
  ([Ev.promptInput name], toPRes ans)

/-- A yes/no confirmation prompt (`inquirer` type "confirm"). -/
def promptConfirmQ (name : String) (ans : Except Err Bool) : Proc Bool :=
  ([Ev.promptConfirm name], toPRes ans)

/-- A single-selection list prompt (`inquirer` type "list"): the answer is
always one of the offered choices, picked by the oracle's index. -/
def promptListQ (name : String) (choices : List String) (ans : Except Err Nat) :
    Proc String :=
  ([Ev.promptList name choices],
    match ans with
    | Except.error e => PRes.err e
    | Except.ok i => PRes.ok (choices.getD (i % choices.length) ""))

/-- One `console.log` line (colouring elided). -/
def logLine (s : String) : Proc Unit := ([Ev.println s], PRes.ok ())

/-- `process.exit(c)`. -/
def exitP {α : Type} (c : Nat) : Proc α := ([], PRes.exit c)

/-- `throw new Error(msg)` raised by this program itself (no stderr, not
a tty error). -/
def throwErr {α : Type} (e : Err) : Proc α := ([], PRes.err e)

/-- Menu label constants (`ACTIONS` in src/index.js). -/
def ACTIONS_STATUS : String := "查看状态 (git status)"

def ACTIONS_COMMIT_PUSH : String := "提交代码 (add. && commit && pull && push)"

def ACTIONS_PULL : String := "拉取代码 (git pull)"

def ACTIONS_PUSH : String := "推送代码 (git push)"

def ACTIONS_BRANCH_MANAGE : String := "分支管理 (查看/切换分支)"

def ACTIONS_MERGE : String := "合并分支"

def ACTIONS_REMOTE_MANAGE : String := "远程仓库管理"

def ACTIONS_EXIT : String := "退出"

/-- The ordered main-menu choice list (src/index.js lines 449-458). -/
def menuChoices : List String :=
  [ACTIONS_STATUS, ACTIONS_COMMIT_PUSH, ACTIONS_PULL, ACTIONS_PUSH,
   ACTIONS_BRANCH_MANAGE, ACTIONS_MERGE, ACTIONS_REMOTE_MANAGE, ACTIONS_EXIT]

/-- Remote sub-menu label constants (`REMOTE_ACTIONS`). -/
def REMOTE_ADD : String := "添加远程仓库"

def REMOTE_UPDATE : String := "修改远程仓库地址"

def REMOTE_DELETE : String := "删除远程仓库"

def REMOTE_BACK : String := "返回"

/-- The ordered remote sub-menu choice list (src/index.js lines 413-418). -/
def remoteMenuChoices : List String :=
  [REMOTE_ADD, REMOTE_UPDATE, REMOTE_DELETE, REMOTE_BACK]

/-- Oracle for one loop iteration: what each collaborator call would
return if made.  A call made twice in one handler invocation (only
`getRemotes` can be) observes the same unchanged environment. -/
structure Env where
  isRepo : Except Err Bool
  branch : Except Err String
  status : Except Err StatusResult
  addR : Except Err Unit
  commitR : Except Err Unit
  pull : Except Err PullSummary
  push : Except Err Unit
  remotes : Except Err (List Remote)
  branchLocal : Except Err BranchSummary
  checkout : Except Err Unit
  merge : Except Err Unit
  addRemoteR : Except Err Unit
  setUrlR : Except Err Unit
  removeRemoteR : Except Err Unit
  menuIdx : Except Err Nat
  commitMsg : Except Err String
  pushRemoteIdx : Except Err Nat
  pushBranchAns : Except Err String
  mbBranchIdx : Except Err Nat
  mergeBranchIdx : Except Err Nat
  mergeConfirm : Except Err Bool
  remoteActionIdx : Except Err Nat
  addNameAns : Except Err String
  addUrlAns : Except Err String
  updRemoteIdx : Except Err Nat
  updUrlAns : Except Err String
  delRemoteIdx : Except Err Nat
  delConfirm : Except Err Bool
  pauseAns : Except Err String

/-- Source `handleError(err, operation)` (lines 29-34): print the message,
and the stderr detail only when `err.stderr` is truthy. -/
def handleError (err : Err) (operation : String) : Proc Unit := do
  logLine ("❌ " ++ operation ++ "失败: " ++ err.message)
  if err.stderr ≠ "" then
    logLine ("详细信息: " ++ err.stderr)

/-- Source `getCurrentBranch()` (lines 39-42). -/
def getCurrentBranch (env : Env) : Proc String :=
  gitCall Ev.callBranch env.branch

/-- Source `getRemotes()` (lines 47-49). -/
def getRemotes (env : Env) : Proc (List Remote) :=
  gitCall Ev.callGetRemotes env.remotes

/-- The error thrown by `getDefaultRemote` when no remote is configured. -/
def noRemoteErr : Err := ⟨"没有配置远程仓库", "", false⟩

/-- The selection expression of line 59:
`remotes.find(r => r.name === "origin")?.name || remotes[0]?.name`. -/
def remoteChoice (remotes : List Remote) : String :=
  match remotes.find? (fun r => r.name == "origin") with
  | some r => r.name
  | none => (remotes.headD ⟨"", ""⟩).name

/-- Source `getDefaultRemote()` (lines 54-60) as a pure function of the
configured remotes list. -/
def getDefaultRemote (remotes : List Remote) : Except Err String :=
  if remotes.length = 0 then Except.error noRemoteErr
  else Except.ok (remoteChoice remotes)

/-- Source `getDefaultRemote()` as a computation: fetch the remotes, then
select (or throw). -/
def getDefaultRemoteP (env : Env) : Proc String := do
  let remotes ← getRemotes env
  if remotes.length = 0 then throwErr noRemoteErr
  else pure (remoteChoice remotes)

/-- Source `checkIsRepo()` (lines 65-71): exit 1 when not inside a git
working tree. -/
def checkIsRepo (env : Env) : Proc Unit := do
  let isRepo ← gitCall Ev.callCheckIsRepo env.isRepo
  if !isRepo then do
    logLine "❌ 当前目录不是一个 Git 仓库"
    exitP 1
  else pure ()

/-- Source `showStatus()` (lines 76-98). -/
def showStatus (env : Env) : Proc Unit :=
  tryCatch
    (do
      let status ← gitCall Ev.callStatus env.status
      logLine ("📂 当前分支: " ++ status.current)
      logLine ("🔗 跟踪分支: " ++ (if status.tracking = "" then "无" else status.tracking))
      logLine ("📌 提交领先: " ++ toString status.ahead ++ ", 落后: " ++ toString status.behind)
      if status.modified.length > 0 then
        logLine ("✏️ 已修改文件: " ++ toString status.modified)
      if status.not_added.length > 0 then
        logLine ("📝 未跟踪文件: " ++ toString status.not_added)
      if status.staged.length > 0 then
        logLine ("✅ 已暂存文件: " ++ toString status.staged)
      if status.modified.length = 0 ∧ status.not_added.length = 0 ∧ status.staged.length = 0 then
        logLine "✅ 工作区干净，没有修改"
      else pure ())
    (fun err => handleError err "查看状态")

/-- The inner pull try/catch of `commitAndPush` (lines 131-142): returns
`true` when the sequence may continue to the push step, `false` when the
failed pull suppressed it (the JS `return` in the catch). -/
def pullStep (env : Env) : Proc Bool :=
  tryCatch
    (do
      logLine "⬇️ 正在拉取远程更新..."
      let pullResult ← gitCall Ev.callPull env.pull
      logLine "⬇️ 已同步远程最新代码"
      if pullResult.changes ≠ 0 ∨ pullResult.insertions ≠ 0 ∨ pullResult.deletions ≠ 0 then
        logLine "📌 本地有变更已合并: "
      pure true)
    (fun err => do
      handleError err "拉取"
      logLine "⚠️ 拉取失败，跳过推送以避免冲突"
      pure false)

/-- The inner push try/catch of `commitAndPush` (lines 144-152). -/
def pushStep (env : Env) (currentBranch : String) : Proc Unit :=
  tryCatch
    (do
      let remote ← getDefaultRemoteP env
      logLine ("🚀 正在推送到 " ++ remote ++ "/" ++ currentBranch ++ "...")
      let _ ← gitCall (Ev.callPush remote currentBranch) env.push
      logLine ("🚀 已成功推送到 " ++ remote ++ "/" ++ currentBranch))
    (fun err => handleError err "推送")

/-- Body of source `commitAndPush()` (lines 103-152) before its outer
catch: branch and status queries, no-op warning when nothing is modified
or untracked, then message prompt, add, commit, pull step, push step. -/
def commitAndPushBody (env : Env) : Proc Unit := do
  let currentBranch ← getCurrentBranch env
  let status ← gitCall Ev.callStatus env.status
  if status.modified.length = 0 ∧ status.not_added.length = 0 then
    logLine "⚠️ 没有需要提交的变更"
  else do
    let msg ← promptInputQ "msg" env.commitMsg
    logLine "📦 正在添加文件..."
    let _ ← gitCall (Ev.callAdd ".") env.addR
    logLine "💾 正在提交..."
    let _ ← gitCall (Ev.callCommit msg.trim) env.commitR
    logLine "✅ 提交成功"
    let proceed ← pullStep env
    if proceed then pushStep env currentBranch
    else pure ()

/-- Source `commitAndPush()` (lines 103-156): the body above inside the
outer try/catch. -/
def commitAndPush (env : Env) : Proc Unit :=
  tryCatch (commitAndPushBody env) (fun err => handleError err "提交代码")

/-- Source `pullCode()` (lines 161-174). -/
def pullCode (env : Env) : Proc Unit :=
  tryCatch
    (do
      logLine "⬇️ 正在拉取代码..."
      let result ← gitCall Ev.callPull env.pull
      logLine "⬇️ 拉取完成"
      if result.changes ≠ 0 ∨ result.insertions ≠ 0 ∨ result.deletions ≠ 0 then
        logLine "📌 更新内容: "
      else
        logLine "✅ 已是最新版本")
    (fun err => handleError err "拉取")

/-- Source `pushCode()` (lines 179-209). -/
def pushCode (env : Env) : Proc Unit :=
  tryCatch
    (do
      let remotes ← getRemotes env
      if remotes.length = 0 then
        logLine "⚠️ 当前没有配置远程仓库"
      else do
        -- `currentBranch` only supplies the branch prompt's default; the
        -- delivered answer comes from the oracle, so the value is unused here.
        let _currentBranch ← getCurrentBranch env
        let remote ← promptListQ "remote" (remotes.map Remote.name) env.pushRemoteIdx
        let branch ← promptInputQ "branch" env.pushBranchAns
        logLine ("🚀 正在推送到 " ++ remote ++ "/" ++ branch ++ "...")
        let _ ← gitCall (Ev.callPush remote branch) env.push
        logLine "🚀 推送完成")
    (fun err => handleError err "推送")

/-- The `branches.all.forEach(...)` display of `manageBranches`
(lines 221-224): one line per branch, the current one marked. -/
def printBranchList (all : List String) (current : String) : Proc Unit :=
  (all.map (fun b => Ev.println ((if b = current then "👉 " else "   ") ++ b)),
   PRes.ok ())

/-- Source `manageBranches()` (lines 214-247). -/
def manageBranches (env : Env) : Proc Unit :=
  tryCatch
    (do
      let branches ← gitCall Ev.callBranchLocal env.branchLocal
      logLine ("📂 当前分支: " ++ branches.current)
      logLine "📋 所有分支:"
      printBranchList branches.all branches.current
      let branch ← promptListQ "branch" branches.all env.mbBranchIdx
      if branch = branches.current then
        logLine "⚠️ 已经是当前分支"
      else do
        logLine ("🔄 正在切换到分支: " ++ branch ++ "...")
        let _ ← gitCall (Ev.callCheckout branch) env.checkout
        logLine ("✅ 已切换到分支: " ++ branch))
    (fun err => handleError err "切换分支")

/-- Source `mergeBranch()` (lines 252-292): the offered list is
`branches.all.filter(b => b !== currentBranch)`; declining the
confirmation cancels before any merge call. -/
def mergeBranch (env : Env) : Proc Unit :=
  tryCatch
    (do
      let currentBranch ← getCurrentBranch env
      let branches ← gitCall Ev.callBranchLocal env.branchLocal
      if (branches.all.filter (fun b => b != currentBranch)).length = 0 then
        logLine "⚠️ 没有其他分支可合并"
      else do
        let branch ← promptListQ "branch"
          (branches.all.filter (fun b => b != currentBranch)) env.mergeBranchIdx
        let confirm ← promptConfirmQ "confirm" env.mergeConfirm
        if !confirm then
          logLine "❌ 已取消合并"
        else do
          logLine ("🔄 正在合并分支 " ++ branch ++ "...")
          let _ ← gitCall (Ev.callMerge branch) env.merge
          logLine ("✅ 已成功合并分支 " ++ branch ++ " 到 " ++ currentBranch))
    (fun err => handleError err "合并分支")

/-- Source `addRemote()` (lines 297-319). -/
def addRemote (env : Env) : Proc Unit :=
  tryCatch
    (do
      let name ← promptInputQ "name" env.addNameAns
      let url ← promptInputQ "url" env.addUrlAns
      let _ ← gitCall (Ev.callAddRemote name.trim url.trim) env.addRemoteR
      logLine ("✅ 已添加远程仓库 " ++ name ++ ": " ++ url))
    (fun err => handleError err "添加远程仓库")

/-- Source `updateRemote()` (lines 324-351). -/
def updateRemote (env : Env) : Proc Unit :=
  tryCatch
    (do
      let remotes ← getRemotes env
      if remotes.length = 0 then
        logLine "⚠️ 当前没有可修改的远程仓库"
      else do
        let remoteName ← promptListQ "remoteName" (remotes.map Remote.name) env.updRemoteIdx
        let newUrl ← promptInputQ "newUrl" env.updUrlAns
        let _ ← gitCall (Ev.callSetUrl remoteName newUrl.trim) env.setUrlR
        logLine ("✅ 已修改远程仓库 " ++ remoteName ++ " 地址为: " ++ newUrl))
    (fun err => handleError err "修改远程仓库")

/-- Source `deleteRemote()` (lines 356-392). -/
def deleteRemote (env : Env) : Proc Unit :=
  tryCatch
    (do
      let remotes ← getRemotes env
      if remotes.length = 0 then
        logLine "⚠️ 当前没有可删除的远程仓库"
      else do
        let remoteName ← promptListQ "remoteName" (remotes.map Remote.name) env.delRemoteIdx
        let confirm ← promptConfirmQ "confirm" env.delConfirm
        if !confirm then
          logLine "❌ 已取消删除"
        else do
          let _ ← gitCall (Ev.callRemoveRemote remoteName) env.removeRemoteR
          logLine ("🗑️ 已删除远程仓库: " ++ remoteName))
    (fun err => handleError err "删除远程仓库")

/-- The `remotes.forEach(...)` display of `manageRemotes` (lines 403-405). -/
def printRemoteList (remotes : List Remote) : Proc Unit :=
  (remotes.map (fun r => Ev.println ("  - " ++ r.name ++ ": " ++ r.fetch)),
   PRes.ok ())

/-- Source `manageRemotes()` (lines 397-435).  Note: unlike every other
action handler this function has no try/catch of its own, so a failure of
its `getRemotes` call or of its sub-menu prompt propagates to the caller. -/
def manageRemotes (env : Env) : Proc Unit := do
  let remotes ← getRemotes env
  if remotes.length = 0 then
    logLine "⚠️ 当前没有配置远程仓库"
  else do
    logLine "📡 当前远程仓库:"
    printRemoteList remotes
  let remoteAction ← promptListQ "remoteAction" remoteMenuChoices env.remoteActionIdx
  if remoteAction = REMOTE_ADD then addRemote env
  else if remoteAction = REMOTE_UPDATE then updateRemote env
  else if remoteAction = REMOTE_DELETE then deleteRemote env
  else pure ()

/-- Source `showMainMenu()` (lines 440-463): the branch query is NOT
guarded; its failure propagates out of this function. -/
def showMainMenu (env : Env) : Proc String := do
  let currentBranch ← getCurrentBranch env
  logLine ("\n📂 当前分支: " ++ currentBranch ++ "\n")
  promptListQ "action" menuChoices env.menuIdx

/-- Source `executeAction(action)` (lines 468-495). -/
def executeAction (env : Env) (action : String) : Proc Unit :=
  if action = ACTIONS_STATUS then showStatus env
  else if action = ACTIONS_COMMIT_PUSH then commitAndPush env
  else if action = ACTIONS_PULL then pullCode env
  else if action = ACTIONS_PUSH then pushCode env
  else if action = ACTIONS_BRANCH_MANAGE then manageBranches env
  else if action = ACTIONS_MERGE then mergeBranch env
  else if action = ACTIONS_REMOTE_MANAGE then manageRemotes env
  else if action = ACTIONS_EXIT then do
    logLine "👋 退出 myGit"
    exitP 0
  else pure ()

/-- Source `waitForContinue()` (lines 500-508): the pause prompt. -/
def waitForContinue (env : Env) : Proc Unit := do
  let _ ← promptInputQ "continue" env.pauseAns
  pure ()

/-- The catch block of the `while (true)` body of `main()` (lines
527-540): a tty error is fatal (exit 1), any other error is reported and
followed by a guarded second pause attempt. -/
def loopCatch (env : Env) (err : Err) : Proc Unit :=
  if err.isTtyError then do
    logLine "❌ 当前环境不支持交互式操作"
    exitP 1
  else do
    handleError err "执行操作"
    tryCatch (waitForContinue env) (fun _ => pure ())

/-- One iteration of the `while (true)` body of `main()` (lines 517-541):
menu, dispatch, pause unless exiting, all guarded by `loopCatch`. -/
def loopIter (env : Env) : Proc Unit :=
  tryCatch
    (do
      let action ← showMainMenu env
      executeAction env action
      if action ≠ ACTIONS_EXIT then do
        waitForContinue env
        logLine ""
      else pure ())
    (loopCatch env)

/-- The `while (true)` loop of `main()` unrolled over a list of
per-iteration environments (the list is the fuel; a real run is the limit
over ever longer lists, and `PRes.ok` at the end means "still looping"). -/
def runLoop : List Env → Proc Unit
  | [] => pure ()
  | env :: rest => do
    loopIter env
    runLoop rest

/-- Source `main()` with its top-level `.catch` (lines 513-548): repo
check, then the loop; an error escaping them hits the final catch, which
reports and exits 1. -/
def runMain (initEnv : Env) (envs : List Env) : Proc Unit :=
  tryCatch
    (do
      checkIsRepo initEnv
      runLoop envs)
    (fun _ => do
      logLine "❌ 发生未预期的错误:"
      exitP 1)

/-- A clean status: nothing modified, untracked or staged. -/
def cleanStatus : StatusResult := ⟨"main", "origin/main", 0, 0, [], [], []⟩

/-- A dirty status: one modified file. -/
def dirtyStatus : StatusResult := ⟨"main", "origin/main", 0, 0, ["a.txt"], [], []⟩

/-- A pull summary with no changes. -/
def quietPull : PullSummary := ⟨0, 0, 0⟩

/-- A generic recoverable collaborator failure (not a tty error). -/
def bootErr : Err := ⟨"boom", "", false⟩

/-- A tty failure ("interactive input unsupported"). -/
def ttyErr : Err := ⟨"tty", "", true⟩

/-- Baseline oracle: every call succeeds, the repository has one remote
"origin", two local branches, the first menu entry is selected, prompts
answer plain strings, confirmations accept. -/
def envBase : Env where
  isRepo := Except.ok true
  branch := Except.ok "main"
  status := Except.ok dirtyStatus
  addR := Except.ok ()
  commitR := Except.ok ()
  pull := Except.ok quietPull
  push := Except.ok ()
  remotes := Except.ok [⟨"origin", "u1"⟩]
  branchLocal := Except.ok ⟨["main", "dev"], "main"⟩
  checkout := Except.ok ()
  merge := Except.ok ()
  addRemoteR := Except.ok ()
  setUrlR := Except.ok ()
  removeRemoteR := Except.ok ()
  menuIdx := Except.ok 0
  commitMsg := Except.ok "fix"
  pushRemoteIdx := Except.ok 0
  pushBranchAns := Except.ok "main"
  mbBranchIdx := Except.ok 0
  mergeBranchIdx := Except.ok 0
  mergeConfirm := Except.ok true
  remoteActionIdx := Except.ok 3
  addNameAns := Except.ok "origin"
  addUrlAns := Except.ok "u"
  updRemoteIdx := Except.ok 0
  updUrlAns := Except.ok "u"
  delRemoteIdx := Except.ok 0
  delConfirm := Except.ok true
  pauseAns := Except.ok ""

/-- A computation that never calls `process.exit`. -/
def NoExit {α : Type} (x : Proc α) : Prop := ∀ c, x.2 ≠ PRes.exit c

/-- Recognizes a push call event. -/
def Ev.isPushCall : Ev → Bool
  | Ev.callPush _ _ => true
  | _ => false

/-- Recognizes the pause-for-acknowledgement prompt (the `waitForContinue`
input question, named "continue"). -/
def Ev.isPausePrompt : Ev → Bool
  | Ev.promptInput n => n == "continue"
  | _ => false

/-- Recognizes the main-menu list prompt (question name "action"). -/
def Ev.isMenuPrompt : Ev → Bool
  | Ev.promptList n _ => n == "action"
  | _ => false

/-- Number of pause prompts presented in a trace. -/
def pauseCount (t : List Ev) : Nat := t.countP Ev.isPausePrompt

/-- Number of main-menu prompts presented in a trace. -/
def menuCount (t : List Ev) : Nat := t.countP Ev.isMenuPrompt

/-- Every event of the computation's trace satisfies `P`. -/
def TraceAll {α : Type} (P : Ev → Prop) (x : Proc α) : Prop := ∀ ev ∈ x.1, P ev

/-! From here on: the verification lemmas and the claim theorems. -/

@[simp] theorem Proc.bind_eq {α β : Type} (x : Proc α) (f : α → Proc β) :
    x >>= f = Proc.bindP x f := rfl

@[simp] theorem Proc.pure_eq {α : Type} (a : α) :
    (pure a : Proc α) = ([], PRes.ok a) := rfl

@[simp] theorem Proc.bindP_ok {α β : Type} (t : List Ev) (a : α) (f : α → Proc β) :
    Proc.bindP (t, PRes.ok a) f = (t ++ (f a).1, (f a).2) := rfl

@[simp] theorem Proc.bindP_err {α β : Type} (t : List Ev) (e : Err) (f : α → Proc β) :
    Proc.bindP (t, PRes.err e) f = (t, PRes.err e) := rfl

@[simp] theorem Proc.bindP_exit {α β : Type} (t : List Ev) (c : Nat) (f : α → Proc β) :
    Proc.bindP (t, PRes.exit c) f = (t, PRes.exit c) := rfl

@[simp] theorem tryCatch_ok {α : Type} (t : List Ev) (a : α) (h : Err → Proc α) :
    tryCatch (t, PRes.ok a) h = (t, PRes.ok a) := rfl

@[simp] theorem tryCatch_err {α : Type} (t : List Ev) (e : Err) (h : Err → Proc α) :
    tryCatch (t, PRes.err e) h = (t ++ (h e).1, (h e).2) := rfl

@[simp] theorem tryCatch_exit {α : Type} (t : List Ev) (c : Nat) (h : Err → Proc α) :
    tryCatch (t, PRes.exit c) h = (t, PRes.exit c) := rfl

@[simp] theorem toPRes_ok {α : Type} (a : α) : toPRes (Except.ok a) = PRes.ok a := rfl

@[simp] theorem toPRes_err {α : Type} (e : Err) :
    toPRes (Except.error e : Except Err α) = PRes.err e := rfl

/-- Full computation of `handleError`: one line always, the detail line
only when stderr is truthy. -/
theorem handleError_eq (e : Err) (op : String) :
    handleError e op =
      (Ev.println ("❌ " ++ op ++ "失败: " ++ e.message) ::
        (if e.stderr = "" then [] else [Ev.println ("详细信息: " ++ e.stderr)]),
       PRes.ok ()) := by
  by_cases h : e.stderr = "" <;> simp [handleError, logLine, h]

theorem noExit_bind {α β : Type} {x : Proc α} {f : α → Proc β}
    (hx : NoExit x) (hf : ∀ a, NoExit (f a)) : NoExit (x >>= f) := by
  rcases x with ⟨t, r⟩
  cases r with
  | ok a => intro c h; exact hf a c h
  | err e => intro c h; exact PRes.noConfusion h
  | exit c0 => exact absurd rfl (hx c0)

theorem noExit_tryCatch {α : Type} {x : Proc α} {h : Err → Proc α}
    (hx : NoExit x) (hh : ∀ e, NoExit (h e)) : NoExit (tryCatch x h) := by
  rcases x with ⟨t, r⟩
  cases r with
  | ok a => exact fun c hc => PRes.noConfusion hc
  | err e => intro c hc; exact hh e c hc
  | exit c0 => exact absurd rfl (hx c0)

theorem noExit_ite {α : Type} {c : Prop} [Decidable c] {x y : Proc α}
    (hx : NoExit x) (hy : NoExit y) : NoExit (if c then x else y) := by
  by_cases h : c <;> simp [h] <;> assumption

theorem noExit_gitCall {α : Type} (ev : Ev) (r : Except Err α) :
    NoExit (gitCall ev r) := by
  cases r <;> intro c h <;> exact PRes.noConfusion h

theorem noExit_promptInputQ (name : String) (ans : Except Err String) :
    NoExit (promptInputQ name ans) := by
  cases ans <;> intro c h <;> exact PRes.noConfusion h

theorem noExit_promptConfirmQ (name : String) (ans : Except Err Bool) :
    NoExit (promptConfirmQ name ans) := by
  cases ans <;> intro c h <;> exact PRes.noConfusion h

theorem noExit_promptListQ (name : String) (choices : List String)
    (ans : Except Err Nat) : NoExit (promptListQ name choices ans) := by
  cases ans <;> intro c h <;> exact PRes.noConfusion h

theorem noExit_logLine (s : String) : NoExit (logLine s) :=
  fun _ h => PRes.noConfusion h

theorem noExit_pure {α : Type} (a : α) : NoExit (pure a : Proc α) :=
  fun _ h => PRes.noConfusion h

theorem noExit_throwErr {α : Type} (e : Err) : NoExit (throwErr e : Proc α) :=
  fun _ h => PRes.noConfusion h

theorem noExit_handleError (e : Err) (op : String) : NoExit (handleError e op) := by
  rw [handleError_eq]; exact fun _ h => PRes.noConfusion h

theorem noExit_printBranchList (all : List String) (cur : String) :
    NoExit (printBranchList all cur) := fun _ h => PRes.noConfusion h

theorem noExit_printRemoteList (rs : List Remote) :
    NoExit (printRemoteList rs) := fun _ h => PRes.noConfusion h

theorem noExit_getCurrentBranch (env : Env) : NoExit (getCurrentBranch env) :=
  noExit_gitCall _ _

theorem noExit_getRemotes (env : Env) : NoExit (getRemotes env) :=
  noExit_gitCall _ _

theorem noExit_getDefaultRemoteP (env : Env) : NoExit (getDefaultRemoteP env) := by
  unfold getDefaultRemoteP
  exact noExit_bind (noExit_getRemotes env)
    (fun rs => noExit_ite (noExit_throwErr _) (noExit_pure _))

theorem noExit_of_ret {x : Proc Unit} (h : x.2 = PRes.ok ()) : NoExit x := by
  intro c hc; rw [h] at hc; exact PRes.noConfusion hc

/-- A try/catch whose handler always returns normally returns normally,
provided the body never exits the process. -/
theorem tryCatch_ret {x : Proc Unit} {h : Err → Proc Unit}
    (hx : NoExit x) (hh : ∀ e, (h e).2 = PRes.ok ()) :
    (tryCatch x h).2 = PRes.ok () := by
  rcases x with ⟨t, r⟩
  cases r with
  | ok a => cases a; rfl
  | err e => exact hh e
  | exit c => exact absurd rfl (hx c)

theorem ret_handleError (e : Err) (op : String) :
    (handleError e op).2 = PRes.ok () := by
  rw [handleError_eq]

theorem ret_showStatus (env : Env) : (showStatus env).2 = PRes.ok () := by
  unfold showStatus
  refine tryCatch_ret ?_ (fun e => ret_handleError e _)
  repeat
    first
    | exact noExit_gitCall _ _
    | exact noExit_logLine _
    | exact noExit_pure _
    | refine noExit_bind ?_ ?_
    | refine noExit_ite ?_ ?_
    | intro x

theorem noExit_pullStep (env : Env) : NoExit (pullStep env) := by
  unfold pullStep
  refine noExit_tryCatch ?_ ?_
  all_goals
    repeat
      first
      | exact noExit_gitCall _ _
      | exact noExit_logLine _
      | exact noExit_pure _
      | exact noExit_handleError _ _
      | refine noExit_bind ?_ ?_
      | refine noExit_ite ?_ ?_
      | intro x

theorem ret_pushStep (env : Env) (cb : String) :
    (pushStep env cb).2 = PRes.ok () := by
  unfold pushStep
  refine tryCatch_ret ?_ (fun e => ret_handleError e _)
  repeat
    first
    | exact noExit_getDefaultRemoteP _
    | exact noExit_gitCall _ _
    | exact noExit_logLine _
    | exact noExit_pure _
    | refine noExit_bind ?_ ?_
    | refine noExit_ite ?_ ?_
    | intro x

theorem ret_commitAndPush (env : Env) : (commitAndPush env).2 = PRes.ok () := by
  unfold commitAndPush commitAndPushBody
  refine tryCatch_ret ?_ (fun e => ret_handleError e _)
  repeat
    first
    | exact noExit_getCurrentBranch _
    | exact noExit_pullStep _
    | exact noExit_of_ret (ret_pushStep _ _)
    | exact noExit_gitCall _ _
    | exact noExit_promptInputQ _ _
    | exact noExit_logLine _
    | exact noExit_pure _
    | refine noExit_bind ?_ ?_
    | refine noExit_ite ?_ ?_
    | intro x

theorem ret_pullCode (env : Env) : (pullCode env).2 = PRes.ok () := by
  unfold pullCode
  refine tryCatch_ret ?_ (fun e => ret_handleError e _)
  repeat
    first
    | exact noExit_gitCall _ _
    | exact noExit_logLine _
    | exact noExit_pure _
    | refine noExit_bind ?_ ?_
    | refine noExit_ite ?_ ?_
    | intro x

theorem ret_pushCode (env : Env) : (pushCode env).2 = PRes.ok () := by
  unfold pushCode
  refine tryCatch_ret ?_ (fun e => ret_handleError e _)
  repeat
    first
    | exact noExit_getRemotes _
    | exact noExit_getCurrentBranch _
    | exact noExit_gitCall _ _
    | exact noExit_promptInputQ _ _
    | exact noExit_promptListQ _ _ _
    | exact noExit_logLine _
    | exact noExit_pure _
    | refine noExit_bind ?_ ?_
    | refine noExit_ite ?_ ?_
    | intro x

theorem ret_manageBranches (env : Env) : (manageBranches env).2 = PRes.ok () := by
  unfold manageBranches
  refine tryCatch_ret ?_ (fun e => ret_handleError e _)
  repeat
    first
    | exact noExit_gitCall _ _
    | exact noExit_printBranchList _ _
    | exact noExit_promptListQ _ _ _
    | exact noExit_logLine _
    | exact noExit_pure _
    | refine noExit_bind ?_ ?_
    | refine noExit_ite ?_ ?_
    | intro x

theorem ret_mergeBranch (env : Env) : (mergeBranch env).2 = PRes.ok () := by
  unfold mergeBranch
  refine tryCatch_ret ?_ (fun e => ret_handleError e _)
  repeat
    first
    | exact noExit_getCurrentBranch _
    | exact noExit_gitCall _ _
    | exact noExit_promptListQ _ _ _
    | exact noExit_promptConfirmQ _ _
    | exact noExit_logLine _
    | exact noExit_pure _
    | refine noExit_bind ?_ ?_
    | refine noExit_ite ?_ ?_
    | intro x

theorem ret_addRemote (env : Env) : (addRemote env).2 = PRes.ok () := by
  unfold addRemote
  refine tryCatch_ret ?_ (fun e => ret_handleError e _)
  repeat
    first
    | exact noExit_gitCall _ _
    | exact noExit_promptInputQ _ _
    | exact noExit_logLine _
    | exact noExit_pure _
    | refine noExit_bind ?_ ?_
    | refine noExit_ite ?_ ?_
    | intro x

theorem ret_updateRemote (env : Env) : (updateRemote env).2 = PRes.ok () := by
  unfold updateRemote
  refine tryCatch_ret ?_ (fun e => ret_handleError e _)
  repeat
    first
    | exact noExit_getRemotes _
    | exact noExit_gitCall _ _
    | exact noExit_promptInputQ _ _
    | exact noExit_promptListQ _ _ _
    | exact noExit_logLine _
    | exact noExit_pure _
    | refine noExit_bind ?_ ?_
    | refine noExit_ite ?_ ?_
    | intro x

theorem ret_deleteRemote (env : Env) : (deleteRemote env).2 = PRes.ok () := by
  unfold deleteRemote
  refine tryCatch_ret ?_ (fun e => ret_handleError e _)
  repeat
    first
    | exact noExit_getRemotes _
    | exact noExit_gitCall _ _
    | exact noExit_promptListQ _ _ _
    | exact noExit_promptConfirmQ _ _
    | exact noExit_logLine _
    | exact noExit_pure _
    | refine noExit_bind ?_ ?_
    | refine noExit_ite ?_ ?_
    | intro x

theorem noExit_manageRemotes (env : Env) : NoExit (manageRemotes env) := by
  unfold manageRemotes
  repeat
    first
    | exact noExit_getRemotes _
    | exact noExit_printRemoteList _
    | exact noExit_promptListQ _ _ _
    | exact noExit_logLine _
    | exact noExit_pure _
    | exact noExit_of_ret (ret_addRemote _)
    | exact noExit_of_ret (ret_updateRemote _)
    | exact noExit_of_ret (ret_deleteRemote _)
    | refine noExit_bind ?_ ?_
    | refine noExit_ite ?_ ?_
    | intro x

theorem traceAll_bind {α β : Type} {P : Ev → Prop} {x : Proc α} {f : α → Proc β}
    (hx : TraceAll P x) (hf : ∀ a, TraceAll P (f a)) : TraceAll P (x >>= f) := by
  rcases x with ⟨t, r⟩
  cases r with
  | ok a =>
    intro ev hev
    rcases List.mem_append.1 hev with h | h
    · exact hx ev h
    · exact hf a ev h
  | err e => exact hx
  | exit c => exact hx

theorem traceAll_bind_okv {α β : Type} {P : Ev → Prop} {x : Proc α}
    {f : α → Proc β} {a : α} (hx2 : x.2 = PRes.ok a)
    (hx : TraceAll P x) (hf : TraceAll P (f a)) : TraceAll P (x >>= f) := by
  rcases x with ⟨t, r⟩
  cases r with
  | ok a0 =>
    cases PRes.ok.inj hx2
    intro ev hev
    rcases List.mem_append.1 hev with h | h
    · exact hx ev h
    · exact hf ev h
  | err e => exact hx
  | exit c => exact hx

theorem traceAll_tryCatch {α : Type} {P : Ev → Prop} {x : Proc α}
    {h : Err → Proc α} (hx : TraceAll P x) (hh : ∀ e, TraceAll P (h e)) :
    TraceAll P (tryCatch x h) := by
  rcases x with ⟨t, r⟩
  cases r with
  | ok a => exact hx
  | err e =>
    intro ev hev
    rcases List.mem_append.1 hev with hm | hm
    · exact hx ev hm
    · exact hh e ev hm
  | exit c => exact hx

theorem traceAll_ite {α : Type} {P : Ev → Prop} {c : Prop} [Decidable c]
    {x y : Proc α} (hx : TraceAll P x) (hy : TraceAll P y) :
    TraceAll P (if c then x else y) := by
  split <;> assumption

theorem traceAll_gitCall {α : Type} {P : Ev → Prop} {ev : Ev}
    (h : P ev) (r : Except Err α) : TraceAll P (gitCall ev r) := by
  intro e he
  rw [List.mem_singleton.1 he]
  exact h

theorem traceAll_promptInputQ {P : Ev → Prop} {name : String}
    (h : P (Ev.promptInput name)) (ans : Except Err String) :
    TraceAll P (promptInputQ name ans) := by
  intro e he
  rw [List.mem_singleton.1 he]
  exact h

theorem traceAll_promptConfirmQ {P : Ev → Prop} {name : String}
    (h : P (Ev.promptConfirm name)) (ans : Except Err Bool) :
    TraceAll P (promptConfirmQ name ans) := by
  intro e he
  rw [List.mem_singleton.1 he]
  exact h

theorem traceAll_promptListQ {P : Ev → Prop} {name : String}
    {choices : List String} (h : P (Ev.promptList name choices))
    (ans : Except Err Nat) : TraceAll P (promptListQ name choices ans) := by
  intro e he
  rw [List.mem_singleton.1 he]
  exact h

theorem traceAll_logLine {P : Ev → Prop} {s : String}
    (h : P (Ev.println s)) : TraceAll P (logLine s) := by
  intro e he
  rw [List.mem_singleton.1 he]
  exact h

theorem traceAll_pure {α : Type} {P : Ev → Prop} (a : α) :
    TraceAll P (pure a : Proc α) := by
  intro e he
  exact absurd he (List.not_mem_nil e)

theorem traceAll_throwErr {α : Type} {P : Ev → Prop} (e : Err) :
    TraceAll P (throwErr e : Proc α) := by
  intro ev hev
  exact absurd hev (List.not_mem_nil ev)

theorem traceAll_exitP {α : Type} {P : Ev → Prop} (c : Nat) :
    TraceAll P (exitP c : Proc α) := by
  intro ev hev
  exact absurd hev (List.not_mem_nil ev)

theorem traceAll_handleError {P : Ev → Prop} (h : ∀ s, P (Ev.println s))
    (e : Err) (op : String) : TraceAll P (handleError e op) := by
  rw [handleError_eq]
  intro ev hev
  by_cases hs : e.stderr = "" <;> simp [hs] at hev
  · rw [hev]; exact h _
  · rcases hev with hev | hev <;> (rw [hev]; exact h _)

theorem traceAll_printBranchList {P : Ev → Prop} (h : ∀ s, P (Ev.println s))
    (all : List String) (cur : String) : TraceAll P (printBranchList all cur) := by
  intro ev hev
  simp [printBranchList] at hev
  obtain ⟨b, _, hb⟩ := hev
  rw [← hb]
  exact h _

theorem traceAll_printRemoteList {P : Ev → Prop} (h : ∀ s, P (Ev.println s))
    (rs : List Remote) : TraceAll P (printRemoteList rs) := by
  intro ev hev
  simp [printRemoteList] at hev
  obtain ⟨r, _, hr⟩ := hev
  rw [← hr]
  exact h _

/-- A trace whose events all fail a boolean classifier has count zero. -/
theorem countP_zero_of_traceAll {α : Type} {p : Ev → Bool} {x : Proc α}
    (h : TraceAll (fun ev => p ev = false) x) : x.1.countP p = 0 := by
  rw [List.countP_eq_zero]
  intro a ha
  simp [h a ha]

theorem noPause_showStatus (env : Env) :
    TraceAll (fun ev => Ev.isPausePrompt ev = false) (showStatus env) := by
  unfold showStatus
  repeat
    first
    | rfl
    | refine traceAll_gitCall ?_ _
    | refine traceAll_promptListQ ?_ _
    | refine traceAll_promptConfirmQ ?_ _
    | refine traceAll_promptInputQ ?_ _
    | exact traceAll_pure _
    | exact traceAll_throwErr _
    | exact traceAll_exitP _
    | refine traceAll_logLine ?_
    | refine traceAll_handleError ?_ _ _
    | refine traceAll_bind ?_ ?_
    | refine traceAll_tryCatch ?_ ?_
    | refine traceAll_ite ?_ ?_
    | decide
    | intro x

theorem noPause_commitAndPush (env : Env) :
    TraceAll (fun ev => Ev.isPausePrompt ev = false) (commitAndPush env) := by
  unfold commitAndPush commitAndPushBody pullStep pushStep getCurrentBranch
    getDefaultRemoteP getRemotes
  repeat
    first
    | rfl
    | refine traceAll_gitCall ?_ _
    | refine traceAll_promptListQ ?_ _
    | refine traceAll_promptConfirmQ ?_ _
    | refine traceAll_promptInputQ ?_ _
    | exact traceAll_pure _
    | exact traceAll_throwErr _
    | exact traceAll_exitP _
    | refine traceAll_logLine ?_
    | refine traceAll_handleError ?_ _ _
    | refine traceAll_bind ?_ ?_
    | refine traceAll_tryCatch ?_ ?_
    | refine traceAll_ite ?_ ?_
    | decide
    | intro x

theorem noPause_pullCode (env : Env) :
    TraceAll (fun ev => Ev.isPausePrompt ev = false) (pullCode env) := by
  unfold pullCode
  repeat
    first
    | rfl
    | refine traceAll_gitCall ?_ _
    | exact traceAll_pure _
    | refine traceAll_logLine ?_
    | refine traceAll_handleError ?_ _ _
    | refine traceAll_bind ?_ ?_
    | refine traceAll_tryCatch ?_ ?_
    | refine traceAll_ite ?_ ?_
    | decide
    | intro x

theorem noPause_pushCode (env : Env) :
    TraceAll (fun ev => Ev.isPausePrompt ev = false) (pushCode env) := by
  unfold pushCode getRemotes getCurrentBranch
  repeat
    first
    | rfl
    | refine traceAll_gitCall ?_ _
    | refine traceAll_promptListQ ?_ _
    | refine traceAll_promptInputQ ?_ _
    | exact traceAll_pure _
    | refine traceAll_logLine ?_
    | refine traceAll_handleError ?_ _ _
    | refine traceAll_bind ?_ ?_
    | refine traceAll_tryCatch ?_ ?_
    | refine traceAll_ite ?_ ?_
    | decide
    | intro x

theorem noPause_manageBranches (env : Env) :
    TraceAll (fun ev => Ev.isPausePrompt ev = false) (manageBranches env) := by
  unfold manageBranches
  repeat
    first
    | rfl
    | refine traceAll_gitCall ?_ _
    | refine traceAll_promptListQ ?_ _
    | exact traceAll_pure _
    | refine traceAll_logLine ?_
    | refine traceAll_handleError ?_ _ _
    | refine traceAll_printBranchList ?_ _ _
    | refine traceAll_bind ?_ ?_
    | refine traceAll_tryCatch ?_ ?_
    | refine traceAll_ite ?_ ?_
    | decide
    | intro x

theorem noPause_mergeBranch (env : Env) :
    TraceAll (fun ev => Ev.isPausePrompt ev = false) (mergeBranch env) := by
  unfold mergeBranch getCurrentBranch
  repeat
    first
    | rfl
    | refine traceAll_gitCall ?_ _
    | refine traceAll_promptListQ ?_ _
    | refine traceAll_promptConfirmQ ?_ _
    | exact traceAll_pure _
    | refine traceAll_logLine ?_
    | refine traceAll_handleError ?_ _ _
    | refine traceAll_bind ?_ ?_
    | refine traceAll_tryCatch ?_ ?_
    | refine traceAll_ite ?_ ?_
    | decide
    | intro x

theorem noPause_addRemote (env : Env) :
    TraceAll (fun ev => Ev.isPausePrompt ev = false) (addRemote env) := by
  unfold addRemote
  repeat
    first
    | rfl
    | refine traceAll_gitCall ?_ _
    | refine traceAll_promptInputQ ?_ _
    | exact traceAll_pure _
    | refine traceAll_logLine ?_
    | refine traceAll_handleError ?_ _ _
    | refine traceAll_bind ?_ ?_
    | refine traceAll_tryCatch ?_ ?_
    | refine traceAll_ite ?_ ?_
    | decide
    | intro x

theorem noPause_updateRemote (env : Env) :
    TraceAll (fun ev => Ev.isPausePrompt ev = false) (updateRemote env) := by
  unfold updateRemote getRemotes
  repeat
    first
    | rfl
    | refine traceAll_gitCall ?_ _
    | refine traceAll_promptListQ ?_ _
    | refine traceAll_promptInputQ ?_ _
    | exact traceAll_pure _
    | refine traceAll_logLine ?_
    | refine traceAll_handleError ?_ _ _
    | refine traceAll_bind ?_ ?_
    | refine traceAll_tryCatch ?_ ?_
    | refine traceAll_ite ?_ ?_
    | decide
    | intro x

theorem noPause_deleteRemote (env : Env) :
    TraceAll (fun ev => Ev.isPausePrompt ev = false) (deleteRemote env) := by
  unfold deleteRemote getRemotes
  repeat
    first
    | rfl
    | refine traceAll_gitCall ?_ _
    | refine traceAll_promptListQ ?_ _
    | refine traceAll_promptConfirmQ ?_ _
    | exact traceAll_pure _
    | refine traceAll_logLine ?_
    | refine traceAll_handleError ?_ _ _
    | refine traceAll_bind ?_ ?_
    | refine traceAll_tryCatch ?_ ?_
    | refine traceAll_ite ?_ ?_
    | decide
    | intro x

theorem noPause_manageRemotes (env : Env) :
    TraceAll (fun ev => Ev.isPausePrompt ev = false) (manageRemotes env) := by
  unfold manageRemotes getRemotes
  repeat
    first
    | rfl
    | exact noPause_addRemote env
    | exact noPause_updateRemote env
    | exact noPause_deleteRemote env
    | refine traceAll_gitCall ?_ _
    | refine traceAll_promptListQ ?_ _
    | exact traceAll_pure _
    | refine traceAll_logLine ?_
    | refine traceAll_printRemoteList ?_ _
    | refine traceAll_bind ?_ ?_
    | refine traceAll_ite ?_ ?_
    | decide
    | intro x

/-- No action handler, dispatched through `executeAction`, ever presents
the pause prompt. -/
theorem noPause_executeAction (env : Env) (a : String) :
    TraceAll (fun ev => Ev.isPausePrompt ev = false) (executeAction env a) := by
  unfold executeAction
  split_ifs
  · exact noPause_showStatus env
  · exact noPause_commitAndPush env
  · exact noPause_pullCode env
  · exact noPause_pushCode env
  · exact noPause_manageBranches env
  · exact noPause_mergeBranch env
  · exact noPause_manageRemotes env
  · refine traceAll_bind (traceAll_logLine rfl) (fun a0 => traceAll_exitP _)
  · exact traceAll_pure _

/-- Outcome classification of the dispatcher: every handler returns
normally, except that the remote-management handler may propagate an
error, and the exit action exits with code 0. -/
theorem exec_outcome (env : Env) (a : String) :
    (executeAction env a).2 = PRes.ok () ∨
      (∃ e, (executeAction env a).2 = PRes.err e) ∨
      (executeAction env a).2 = PRes.exit 0 := by
  unfold executeAction
  split_ifs
  · exact Or.inl (ret_showStatus env)
  · exact Or.inl (ret_commitAndPush env)
  · exact Or.inl (ret_pullCode env)
  · exact Or.inl (ret_pushCode env)
  · exact Or.inl (ret_manageBranches env)
  · exact Or.inl (ret_mergeBranch env)
  · rcases h : (manageRemotes env).2 with a0 | e | c
    · cases a0; exact Or.inl rfl
    · exact Or.inr (Or.inl ⟨e, rfl⟩)
    · exact absurd h (noExit_manageRemotes env c)
  · right; right; rfl
  · exact Or.inl rfl

/-- Membership in an if-then-else list distributes over the split. -/
theorem mem_ite_list {c : Prop} [Decidable c] (a : Ev) (l1 l2 : List Ev) :
    (a ∈ if c then l1 else l2) = (if c then a ∈ l1 else a ∈ l2) := by
  split <;> rfl

/-- Claim C2 (confirmed): for every non-empty configured remotes list the
default remote is "origin" when a remote of that name is present,
otherwise the first remote's name; in particular
[upstream, origin] resolves to "origin" and [upstream] to "upstream". -/
theorem claim_C2_default_remote (remotes : List Remote) (hne : remotes ≠ []) :
    ((∃ r ∈ remotes, r.name = "origin") → getDefaultRemote remotes = Except.ok "origin") ∧
    ((∀ r ∈ remotes, r.name ≠ "origin") →
      getDefaultRemote remotes = Except.ok ((remotes.headD ⟨"", ""⟩).name)) ∧
    getDefaultRemote [⟨"upstream", "u1"⟩, ⟨"origin", "u2"⟩] = Except.ok "origin" ∧
    getDefaultRemote [⟨"upstream", "u1"⟩] = Except.ok "upstream" := by
  have hlen : ¬ remotes.length = 0 := by
    simpa [List.length_eq_zero] using hne
  refine ⟨?_, ?_, rfl, rfl⟩
  · rintro ⟨r, hr, hname⟩
    have hsome : (remotes.find? (fun r => r.name == "origin")).isSome := by
      rw [List.find?_isSome]
      exact ⟨r, hr, by simp [hname]⟩
    obtain ⟨r0, hr0⟩ := Option.isSome_iff_exists.1 hsome
    have hr0n : r0.name = "origin" := by
      have := List.find?_some hr0
      simpa using this
    simp [getDefaultRemote, hlen, remoteChoice, hr0, hr0n]
  · intro hall
    have hnone : remotes.find? (fun r => r.name == "origin") = none := by
      rw [List.find?_eq_none]
      intro r hr
      simp [hall r hr]
    simp [getDefaultRemote, hlen, remoteChoice, hnone]

/-- Witness for C2: the two concrete resolutions from the spec. -/
theorem claim_C2_default_remote_witness :
    getDefaultRemote [⟨"upstream", "u1"⟩, ⟨"origin", "u2"⟩] = Except.ok "origin" ∧
    getDefaultRemote [⟨"upstream", "u1"⟩] = Except.ok "upstream" :=
  ⟨(claim_C2_default_remote [⟨"upstream", "u1"⟩, ⟨"origin", "u2"⟩] (by decide)).2.2.1,
   (claim_C2_default_remote [⟨"upstream", "u1"⟩] (by decide)).2.2.2⟩

/-- Claim C3 (confirmed): when the status shows nothing modified and
nothing untracked (staged files notwithstanding), commit-and-sync only
queries branch and status, emits the warning, and returns: no staging,
commit, pull, push, or prompt happens. -/
theorem claim_C3_noop_when_clean (env : Env) (cur : String) (st : StatusResult)
    (hb : env.branch = Except.ok cur) (hs : env.status = Except.ok st)
    (hm : st.modified = []) (hn : st.not_added = []) :
    commitAndPush env =
      ([Ev.callBranch, Ev.callStatus, Ev.println "⚠️ 没有需要提交的变更"], PRes.ok ()) := by
  simp [commitAndPush, commitAndPushBody, getCurrentBranch, gitCall, hb, hs, hm, hn, logLine]

/-- Witness for C3: a clean status with a staged file list absent. -/
theorem claim_C3_noop_when_clean_witness :
    commitAndPush { envBase with status := Except.ok cleanStatus } =
      ([Ev.callBranch, Ev.callStatus, Ev.println "⚠️ 没有需要提交的变更"], PRes.ok ()) :=
  claim_C3_noop_when_clean _ "main" cleanStatus rfl rfl rfl rfl

/-- Claim C1 (confirmed): whenever the pull call would fail, no push call
appears in the commit-and-sync trace, the handler still returns normally,
and if the pull was actually reached its failure is reported and the
skip-push warning printed. -/
theorem claim_C1_pull_fail_no_push (env : Env) (e : Err)
    (hp : env.pull = Except.error e) :
    (∀ r b, Ev.callPush r b ∉ (commitAndPush env).1) ∧
    (commitAndPush env).2 = PRes.ok () ∧
    (Ev.callPull ∈ (commitAndPush env).1 →
      Ev.println ("❌ 拉取失败: " ++ e.message) ∈ (commitAndPush env).1 ∧
      Ev.println "⚠️ 拉取失败，跳过推送以避免冲突" ∈ (commitAndPush env).1) := by
  have main : (∀ r b, Ev.callPush r b ∉ (commitAndPush env).1) ∧
      (Ev.callPull ∈ (commitAndPush env).1 →
        Ev.println ("❌ 拉取失败: " ++ e.message) ∈ (commitAndPush env).1 ∧
        Ev.println "⚠️ 拉取失败，跳过推送以避免冲突" ∈ (commitAndPush env).1) := by
    rcases hb : env.branch with eb | cur
    · simp [commitAndPush, commitAndPushBody, getCurrentBranch, gitCall, hb,
        handleError_eq, mem_ite_list, logLine]
    · rcases hs : env.status with es | st
      · simp [commitAndPush, commitAndPushBody, getCurrentBranch, gitCall, hb, hs,
          handleError_eq, mem_ite_list, logLine]
      · by_cases hcond : st.modified = [] ∧ st.not_added = []
        · simp [commitAndPush, commitAndPushBody, getCurrentBranch, gitCall, hb, hs,
            hcond, logLine]
        · rcases hmsg : env.commitMsg with em | msg
          · simp [commitAndPush, commitAndPushBody, getCurrentBranch, gitCall,
              promptInputQ, hb, hs, hcond, hmsg, handleError_eq, mem_ite_list, logLine]
          · rcases ha : env.addR with ea | u1
            · simp [commitAndPush, commitAndPushBody, getCurrentBranch, gitCall,
                promptInputQ, hb, hs, hcond, hmsg, ha, handleError_eq, mem_ite_list, logLine]
            · rcases hc : env.commitR with ec | u2
              · simp [commitAndPush, commitAndPushBody, getCurrentBranch, gitCall,
                  promptInputQ, hb, hs, hcond, hmsg, ha, hc, handleError_eq, mem_ite_list,
                  logLine]
              · simp [commitAndPush, commitAndPushBody, pullStep, getCurrentBranch,
                  gitCall, promptInputQ, hb, hs, hcond, hmsg, ha, hc, hp, handleError_eq,
                  mem_ite_list, logLine]
  exact ⟨main.1, ret_commitAndPush env, main.2⟩

/-- Witness for C1: a run that reaches the pull and fails there. -/
theorem claim_C1_pull_fail_no_push_witness :
    (∀ r b, Ev.callPush r b ∉ (commitAndPush { envBase with pull := Except.error bootErr }).1) ∧
    (commitAndPush { envBase with pull := Except.error bootErr }).2 = PRes.ok () ∧
    (Ev.callPull ∈ (commitAndPush { envBase with pull := Except.error bootErr }).1 →
      Ev.println ("❌ 拉取失败: " ++ bootErr.message) ∈
        (commitAndPush { envBase with pull := Except.error bootErr }).1 ∧
      Ev.println "⚠️ 拉取失败，跳过推送以避免冲突" ∈
        (commitAndPush { envBase with pull := Except.error bootErr }).1) :=
  claim_C1_pull_fail_no_push { envBase with pull := Except.error bootErr } bootErr rfl

/-- Claim C10 (confirmed): `getDefaultRemote` errs exactly on the empty
remotes list, and a commit-and-sync run with changes and zero remotes
still stages, commits and pulls; the push step then reports the
"no remotes" failure instead of a push call being made. -/
theorem claim_C10_zero_remotes (env : Env) (cur msg : String) (st : StatusResult)
    (p : PullSummary)
    (hb : env.branch = Except.ok cur) (hs : env.status = Except.ok st)
    (hcond : ¬(st.modified = [] ∧ st.not_added = []))
    (hmsg : env.commitMsg = Except.ok msg)
    (ha : env.addR = Except.ok ()) (hc : env.commitR = Except.ok ())
    (hp : env.pull = Except.ok p) (hr : env.remotes = Except.ok []) :
    (∀ rs : List Remote, (∃ e, getDefaultRemote rs = Except.error e) ↔ rs = []) ∧
    Ev.callAdd "." ∈ (commitAndPush env).1 ∧
    Ev.callCommit msg.trim ∈ (commitAndPush env).1 ∧
    Ev.callPull ∈ (commitAndPush env).1 ∧
    (∀ r b, Ev.callPush r b ∉ (commitAndPush env).1) ∧
    Ev.println ("❌ 推送失败: " ++ noRemoteErr.message) ∈ (commitAndPush env).1 := by
  constructor
  · intro rs
    constructor
    · rintro ⟨e0, he0⟩
      by_contra hne
      have hlen : ¬ rs.length = 0 := by simpa [List.length_eq_zero] using hne
      simp [getDefaultRemote, hlen] at he0
    · rintro rfl
      exact ⟨noRemoteErr, rfl⟩
  · by_cases hpt : p.changes ≠ 0 ∨ p.insertions ≠ 0 ∨ p.deletions ≠ 0 <;>
      simp [commitAndPush, commitAndPushBody, pullStep, pushStep, getDefaultRemoteP,
        getRemotes, getCurrentBranch, gitCall, promptInputQ, throwErr, hb, hs, hcond,
        hmsg, ha, hc, hp, hr, hpt, handleError_eq, mem_ite_list, logLine]

/-- Witness for C10: zero remotes, one modified file, quiet pull. -/
theorem claim_C10_zero_remotes_witness :
    (∀ rs : List Remote, (∃ e, getDefaultRemote rs = Except.error e) ↔ rs = []) ∧
    Ev.callAdd "." ∈ (commitAndPush { envBase with remotes := Except.ok [] }).1 ∧
    Ev.callCommit "fix".trim ∈ (commitAndPush { envBase with remotes := Except.ok [] }).1 ∧
    Ev.callPull ∈ (commitAndPush { envBase with remotes := Except.ok [] }).1 ∧
    (∀ r b, Ev.callPush r b ∉ (commitAndPush { envBase with remotes := Except.ok [] }).1) ∧
    Ev.println ("❌ 推送失败: " ++ noRemoteErr.message) ∈
      (commitAndPush { envBase with remotes := Except.ok [] }).1 :=
  claim_C10_zero_remotes { envBase with remotes := Except.ok [] } "main" "fix"
    dirtyStatus quietPull rfl rfl (by decide) rfl rfl rfl rfl rfl

/-- Every branch-selection prompt shown by `mergeBranch` offers a choice
list that excludes the current branch. -/
theorem mergeOffered (env : Env) (cur : String) (hb : env.branch = Except.ok cur) :
    TraceAll (fun ev => ∀ cs, ev = Ev.promptList "branch" cs → cur ∉ cs)
      (mergeBranch env) := by
  unfold mergeBranch getCurrentBranch
  have h2 : (gitCall Ev.callBranch env.branch).2 = PRes.ok cur := by rw [hb]; rfl
  refine traceAll_tryCatch (traceAll_bind_okv h2 ?_ ?_) ?_
  · exact traceAll_gitCall (fun cs h => Ev.noConfusion h) _
  · repeat
      first
      | exact traceAll_gitCall (fun cs h => Ev.noConfusion h) _
      | exact traceAll_logLine (fun cs h => Ev.noConfusion h)
      | exact traceAll_promptConfirmQ (fun cs h => Ev.noConfusion h) _
      | exact traceAll_pure _
      | (refine traceAll_promptListQ ?_ _
         intro cs h
         injection h with h1 h2
         subst h2
         simp [List.mem_filter])
      | refine traceAll_bind ?_ ?_
      | refine traceAll_ite ?_ ?_
      | intro x
  · intro e
    refine traceAll_handleError ?_ _ _
    exact fun s cs h => Ev.noConfusion h

/-- Claim C8 (confirmed): the merge action's branch list always excludes
the current branch; with no other branch it is a no-op with a notice; and
a declined confirmation yields no merge call. -/
theorem claim_C8_merge_guards (env : Env) :
    (∀ cur cs, env.branch = Except.ok cur →
      Ev.promptList "branch" cs ∈ (mergeBranch env).1 → cur ∉ cs) ∧
    (∀ cur bs, env.branch = Except.ok cur → env.branchLocal = Except.ok bs →
      bs.all.filter (fun b => b != cur) = [] →
      mergeBranch env = ([Ev.callBranch, Ev.callBranchLocal,
        Ev.println "⚠️ 没有其他分支可合并"], PRes.ok ())) ∧
    (env.mergeConfirm = Except.ok false →
      ∀ b, Ev.callMerge b ∉ (mergeBranch env).1) := by
  refine ⟨?_, ?_, ?_⟩
  · intro cur cs hb hmem
    exact mergeOffered env cur hb _ hmem cs rfl
  · intro cur bs hb hbl hfa
    have hfa' : ∀ a ∈ bs.all, a = cur := by simpa using hfa
    simp [mergeBranch, getCurrentBranch, gitCall, hb, hbl, logLine]
    split_ifs
    simp_all
  · intro hconf b
    rcases hb : env.branch with eb | cur
    · simp [mergeBranch, getCurrentBranch, gitCall, hb, handleError_eq, mem_ite_list,
        logLine]
    · rcases hbl : env.branchLocal with ebl | bs
      · simp [mergeBranch, getCurrentBranch, gitCall, hb, hbl, handleError_eq,
          mem_ite_list, logLine]
      · by_cases hfa : ∀ a ∈ bs.all, a = cur
        · simp [mergeBranch, getCurrentBranch, gitCall, hb, hbl, logLine]
          split_ifs
          simp_all
        · rcases hmi : env.mergeBranchIdx with emi | i
          · simp [mergeBranch, getCurrentBranch, gitCall, promptListQ, hb, hbl, hfa,
              hmi, handleError_eq, mem_ite_list, logLine]
          · simp [mergeBranch, getCurrentBranch, gitCall, promptListQ, promptConfirmQ,
              hb, hbl, hfa, hmi, hconf, handleError_eq, mem_ite_list, logLine]

/-- Witness for C8: two branches with current "main", a merge run with
the confirmation declined, and a single-branch no-op run. -/
theorem claim_C8_merge_guards_witness :
    (Ev.promptList "branch" ["dev"] ∈ (mergeBranch envBase).1 → "main" ∉ ["dev"]) ∧
    mergeBranch { envBase with branchLocal := Except.ok ⟨["main"], "main"⟩ } =
      ([Ev.callBranch, Ev.callBranchLocal, Ev.println "⚠️ 没有其他分支可合并"],
        PRes.ok ()) ∧
    (∀ b, Ev.callMerge b ∉
      (mergeBranch { envBase with mergeConfirm := Except.ok false }).1) :=
  ⟨(claim_C8_merge_guards envBase).1 "main" ["dev"] rfl,
   (claim_C8_merge_guards { envBase with branchLocal := Except.ok ⟨["main"], "main"⟩ }).2.1
     "main" ⟨["main"], "main"⟩ rfl rfl (by decide),
   (claim_C8_merge_guards { envBase with mergeConfirm := Except.ok false }).2.2 rfl⟩

/-- Counting over an if-then-else list distributes over the split. -/
theorem countP_ite_list {c : Prop} [Decidable c] (p : Ev → Bool) (l1 l2 : List Ev) :
    (if c then l1 else l2).countP p = if c then l1.countP p else l2.countP p := by
  split <;> rfl

/-- A try/catch whose handler never raises leaves no raised error. -/
theorem tryCatch_no_err {α : Type} {x : Proc α} {h : Err → Proc α}
    (hh : ∀ e e', (h e).2 ≠ PRes.err e') (e' : Err) :
    (tryCatch x h).2 ≠ PRes.err e' := by
  rcases x with ⟨t, r⟩
  cases r with
  | ok a => exact fun hc => PRes.noConfusion hc
  | err e => exact hh e e'
  | exit c => exact fun hc => PRes.noConfusion hc

/-- The loop body catches every error: one iteration never propagates. -/
theorem loopIter_no_err (env : Env) : ∀ e, (loopIter env).2 ≠ PRes.err e := by
  intro e
  unfold loopIter
  refine tryCatch_no_err ?_ e
  intro e0 e1
  by_cases ht : e0.isTtyError <;>
    rcases hw : env.pauseAns with ew | sw <;>
      simp [loopCatch, ht, hw, handleError_eq, logLine, exitP, waitForContinue,
        promptInputQ]

/-- The loop's catch (lines 528-530) on a tty error: it prints the
unsupported-environment message and exits with code 1. -/
theorem loopCatch_tty (env : Env) (e : Err) (het : e.isTtyError = true) :
    loopCatch env e = ([Ev.println "❌ 当前环境不支持交互式操作"], PRes.exit 1) := by
  simp [loopCatch, het, logLine, exitP]

/-- The loop's catch (lines 531-539) on any non-tty error: it reports
the error and returns normally, so the loop continues. -/
theorem loopCatch_report (env : Env) (e : Err) (het : e.isTtyError = false) :
    (loopCatch env e).2 = PRes.ok () ∧
    Ev.println ("❌ 执行操作失败: " ++ e.message) ∈ (loopCatch env e).1 := by
  rcases hw : env.pauseAns with ew | sw <;>
    simp [loopCatch, het, hw, handleError_eq, waitForContinue, promptInputQ, logLine,
      mem_ite_list]

/-- Claim C5 (corrected): every action handler except remote management
catches collaborator failures locally and returns normally; the
remote-management handler has no try/catch of its own, so a failure of
its remote-listing call or of its sub-menu prompt propagates out of the
handler to the main loop's catch, which contains it: a non-tty failure
is reported and the loop continues, a tty failure exits with code 1; an
iteration never re-raises an error. -/
theorem claim_C5_handler_error_policy (env : Env) :
    (showStatus env).2 = PRes.ok () ∧
    (commitAndPush env).2 = PRes.ok () ∧
    (pullCode env).2 = PRes.ok () ∧
    (pushCode env).2 = PRes.ok () ∧
    (manageBranches env).2 = PRes.ok () ∧
    (mergeBranch env).2 = PRes.ok () ∧
    (addRemote env).2 = PRes.ok () ∧
    (updateRemote env).2 = PRes.ok () ∧
    (deleteRemote env).2 = PRes.ok () ∧
    (∀ e, env.remotes = Except.error e → (manageRemotes env).2 = PRes.err e) ∧
    (∀ e rs, env.remotes = Except.ok rs → env.remoteActionIdx = Except.error e →
      (manageRemotes env).2 = PRes.err e) ∧
    (∀ e, (loopIter env).2 ≠ PRes.err e) ∧
    (∀ cur i e, env.branch = Except.ok cur → env.menuIdx = Except.ok i →
      menuChoices.getD (i % menuChoices.length) "" = ACTIONS_REMOTE_MANAGE →
      env.remotes = Except.error e →
      (e.isTtyError = false → (loopIter env).2 = PRes.ok () ∧
        Ev.println ("❌ 执行操作失败: " ++ e.message) ∈ (loopIter env).1) ∧
      (e.isTtyError = true → (loopIter env).2 = PRes.exit 1 ∧
        Ev.println "❌ 当前环境不支持交互式操作" ∈ (loopIter env).1)) := by
  refine ⟨ret_showStatus env, ret_commitAndPush env, ret_pullCode env, ret_pushCode env,
    ret_manageBranches env, ret_mergeBranch env, ret_addRemote env, ret_updateRemote env,
    ret_deleteRemote env, ?_, ?_, loopIter_no_err env, ?_⟩
  · intro e hre
    simp [manageRemotes, getRemotes, gitCall, hre]
  · intro e rs hrs hact
    by_cases hlen : rs = [] <;>
      simp [manageRemotes, getRemotes, gitCall, hrs, hlen, promptListQ, hact,
        printRemoteList, logLine]
  · intro cur i e hb hm hsel hre
    have hsel2 : (menuChoices[i % menuChoices.length]?).getD "" = ACTIONS_REMOTE_MANAGE := by
      simpa using hsel
    have hmenu : showMainMenu env =
        ([Ev.callBranch, Ev.println ("\n📂 当前分支: " ++ cur ++ "\n"),
          Ev.promptList "action" menuChoices], PRes.ok ACTIONS_REMOTE_MANAGE) := by
      simp [showMainMenu, getCurrentBranch, gitCall, hb, hm, promptListQ, logLine, hsel2]
    have hmr : manageRemotes env = ([Ev.callGetRemotes], PRes.err e) := by
      simp [manageRemotes, getRemotes, gitCall, hre]
    constructor
    · intro hnt
      rcases hw : env.pauseAns with ew | sw <;>
        simp [loopIter, loopCatch, hmenu, executeAction, ACTIONS_STATUS,
          ACTIONS_COMMIT_PUSH, ACTIONS_PULL, ACTIONS_PUSH, ACTIONS_BRANCH_MANAGE,
          ACTIONS_MERGE, ACTIONS_REMOTE_MANAGE, ACTIONS_EXIT, hmr, hnt, hw,
          waitForContinue, promptInputQ, handleError_eq, mem_ite_list, logLine]
    · intro htt
      simp [loopIter, loopCatch, hmenu, executeAction, ACTIONS_STATUS,
        ACTIONS_COMMIT_PUSH, ACTIONS_PULL, ACTIONS_PUSH, ACTIONS_BRANCH_MANAGE,
        ACTIONS_MERGE, ACTIONS_REMOTE_MANAGE, ACTIONS_EXIT, hmr, htt, logLine, exitP]

/-- Counterexample to C5 as stated: a failing `getRemotes` call inside
the remote-management handler propagates out of the handler. -/
theorem claim_C5_counterexample :
    ({ envBase with remotes := Except.error bootErr } : Env).remotes =
      Except.error bootErr ∧
    (manageRemotes { envBase with remotes := Except.error bootErr }).2 =
      PRes.err bootErr :=
  ⟨rfl, rfl⟩

/-- Claim C4 (corrected): when the branch query at the start of an
iteration fails (non-tty), the loop-level handler reports the error and
pauses, the menu is NOT presented in that iteration, and the iteration
ends normally (the process does not abort). -/
theorem claim_C4_branch_fail_skips_iteration (env : Env) (e : Err)
    (hb : env.branch = Except.error e) (ht : e.isTtyError = false) :
    (loopIter env).2 = PRes.ok () ∧
    (∀ cs, Ev.promptList "action" cs ∉ (loopIter env).1) ∧
    Ev.println ("❌ 执行操作失败: " ++ e.message) ∈ (loopIter env).1 ∧
    Ev.promptInput "continue" ∈ (loopIter env).1 := by
  rcases hw : env.pauseAns with ew | sw <;>
    simp [loopIter, loopCatch, showMainMenu, getCurrentBranch, gitCall, hb, ht, hw, waitForContinue,
      promptInputQ, handleError_eq, mem_ite_list, logLine]

/-- Counterexample to C4 as stated: with the branch query failing, the
iteration presents no action menu at all. -/
theorem claim_C4_counterexample :
    ({ envBase with branch := Except.error bootErr } : Env).branch = Except.error bootErr ∧
    menuCount (loopIter { envBase with branch := Except.error bootErr }).1 = 0 ∧
    (loopIter { envBase with branch := Except.error bootErr }).2 = PRes.ok () :=
  ⟨rfl, by decide, rfl⟩

/-- Witness for the amended C4 at a concrete failing branch query. -/
theorem claim_C4_witness :
    (loopIter { envBase with branch := Except.error bootErr }).2 = PRes.ok () ∧
    (∀ cs, Ev.promptList "action" cs ∉ (loopIter { envBase with branch := Except.error bootErr }).1) ∧
    Ev.println ("❌ 执行操作失败: " ++ bootErr.message) ∈
      (loopIter { envBase with branch := Except.error bootErr }).1 ∧
    Ev.promptInput "continue" ∈ (loopIter { envBase with branch := Except.error bootErr }).1 :=
  claim_C4_branch_fail_skips_iteration { envBase with branch := Except.error bootErr }
    bootErr rfl rfl

/-- Claim C6 (corrected): a tty ("interactive input unsupported") error
is fatal exactly when it reaches the main loop's catch: that catch exits
with code 1 and the unsupported-environment message on every tty error
it receives, while it reports any other error it receives and returns so
the loop continues; a failing main-menu prompt and a failing
post-handler pause prompt both reach that catch; a tty error raised by a
prompt inside a handler's try block (the commit-message prompt) is
caught there and reported as a recoverable handler error instead. -/
theorem claim_C6_tty_policy (env : Env) (e : Err) :
    (e.isTtyError = true →
      loopCatch env e = ([Ev.println "❌ 当前环境不支持交互式操作"], PRes.exit 1)) ∧
    (e.isTtyError = false →
      (loopCatch env e).2 = PRes.ok () ∧
      Ev.println ("❌ 执行操作失败: " ++ e.message) ∈ (loopCatch env e).1) ∧
    (∀ cur, e.isTtyError = true → env.branch = Except.ok cur →
      env.menuIdx = Except.error e →
      (loopIter env).2 = PRes.exit 1 ∧
      Ev.println "❌ 当前环境不支持交互式操作" ∈ (loopIter env).1) ∧
    (∀ cur a i, e.isTtyError = true → env.branch = Except.ok cur →
      env.menuIdx = Except.ok i →
      menuChoices.getD (i % menuChoices.length) "" = a → a ≠ ACTIONS_EXIT →
      (executeAction env a).2 = PRes.ok () → env.pauseAns = Except.error e →
      (loopIter env).2 = PRes.exit 1 ∧
      Ev.println "❌ 当前环境不支持交互式操作" ∈ (loopIter env).1) ∧
    (∀ cur st, e.isTtyError = true → env.branch = Except.ok cur →
      env.status = Except.ok st →
      ¬(st.modified = [] ∧ st.not_added = []) → env.commitMsg = Except.error e →
      (commitAndPush env).2 = PRes.ok () ∧
      Ev.println ("❌ 提交代码失败: " ++ e.message) ∈ (commitAndPush env).1) := by
  refine ⟨loopCatch_tty env e, loopCatch_report env e, ?_, ?_, ?_⟩
  · intro cur het hb hm
    simp [loopIter, loopCatch, showMainMenu, getCurrentBranch, gitCall, promptListQ,
      hb, hm, het, logLine, exitP]
  · intro cur a i het hb hm hsel hne hret hw
    have hsel2 : (menuChoices[i % menuChoices.length]?).getD "" = a := by simpa using hsel
    have hmenu : showMainMenu env =
        ([Ev.callBranch, Ev.println ("\n📂 当前分支: " ++ cur ++ "\n"),
          Ev.promptList "action" menuChoices], PRes.ok a) := by
      simp [showMainMenu, getCurrentBranch, gitCall, hb, hm, promptListQ, logLine, hsel2]
    rcases hE : executeAction env a with ⟨tE, rE⟩
    rw [hE] at hret
    simp only at hret
    subst hret
    simp [loopIter, loopCatch, hmenu, hE, hne, waitForContinue, promptInputQ, hw, het,
      logLine, exitP]
  · intro cur st het hb hs hcond hmsg
    refine ⟨ret_commitAndPush env, ?_⟩
    simp [commitAndPush, commitAndPushBody, getCurrentBranch, gitCall, promptInputQ,
      hb, hs, hcond, hmsg, handleError_eq, mem_ite_list, logLine]

/-- Witness for the amended C6 at concrete environments: a fatal tty
menu prompt, a fatal tty pause prompt, a reported non-tty loop error,
and a recoverable tty commit-message prompt. -/
theorem claim_C6_witness :
    ((loopIter { envBase with menuIdx := Except.error ttyErr }).2 = PRes.exit 1 ∧
      Ev.println "❌ 当前环境不支持交互式操作" ∈
        (loopIter { envBase with menuIdx := Except.error ttyErr }).1) ∧
    ((loopIter { envBase with pauseAns := Except.error ttyErr }).2 = PRes.exit 1 ∧
      Ev.println "❌ 当前环境不支持交互式操作" ∈
        (loopIter { envBase with pauseAns := Except.error ttyErr }).1) ∧
    ((loopCatch envBase bootErr).2 = PRes.ok () ∧
      Ev.println ("❌ 执行操作失败: " ++ bootErr.message) ∈ (loopCatch envBase bootErr).1) ∧
    ((commitAndPush { envBase with commitMsg := Except.error ttyErr }).2 = PRes.ok () ∧
      Ev.println ("❌ 提交代码失败: " ++ ttyErr.message) ∈
        (commitAndPush { envBase with commitMsg := Except.error ttyErr }).1) :=
  ⟨(claim_C6_tty_policy { envBase with menuIdx := Except.error ttyErr } ttyErr).2.2.1
      "main" rfl rfl rfl,
   (claim_C6_tty_policy { envBase with pauseAns := Except.error ttyErr } ttyErr).2.2.2.1
      "main" ACTIONS_STATUS 0 rfl rfl rfl (by decide) (by decide) rfl rfl,
   (claim_C6_tty_policy envBase bootErr).2.1 rfl,
   (claim_C6_tty_policy { envBase with commitMsg := Except.error ttyErr } ttyErr).2.2.2.2
      "main" dirtyStatus rfl rfl rfl (by decide) rfl⟩

/-- Counterexample to C6 as stated: a tty error in the commit-message
prompt does not terminate the process; it is first reported as a
recoverable handler error and the loop iteration ends normally. -/
theorem claim_C6_counterexample :
    ttyErr.isTtyError = true ∧
    ({ envBase with menuIdx := Except.ok 1, commitMsg := Except.error ttyErr } : Env).commitMsg
      = Except.error ttyErr ∧
    Ev.println ("❌ 提交代码失败: " ++ ttyErr.message) ∈
      (loopIter { envBase with menuIdx := Except.ok 1, commitMsg := Except.error ttyErr }).1 ∧
    (loopIter { envBase with menuIdx := Except.ok 1, commitMsg := Except.error ttyErr }).2 =
      PRes.ok () :=
  ⟨rfl, rfl, by decide, rfl⟩

/-- Claim C7 (corrected): after a non-exit action whose handler returns,
the pause prompt is presented exactly once when it succeeds, but twice
when it fails with a non-tty error (the loop's catch retries it); after
the exit action it is never presented. -/
theorem claim_C7_pause_policy (env : Env) (cur a : String) (i : Nat)
    (hb : env.branch = Except.ok cur) (hm : env.menuIdx = Except.ok i)
    (hsel : menuChoices.getD (i % menuChoices.length) "" = a) :
    (a ≠ ACTIONS_EXIT →
      (executeAction env a).2 = PRes.ok () →
      (∀ s, env.pauseAns = Except.ok s → pauseCount (loopIter env).1 = 1) ∧
      (∀ e, env.pauseAns = Except.error e → e.isTtyError = false →
        pauseCount (loopIter env).1 = 2)) ∧
    (a = ACTIONS_EXIT → pauseCount (loopIter env).1 = 0) := by
  have hsel2 : (menuChoices[i % menuChoices.length]?).getD "" = a := by
    simpa using hsel
  have hmenu : showMainMenu env =
      ([Ev.callBranch, Ev.println ("\n📂 当前分支: " ++ cur ++ "\n"),
        Ev.promptList "action" menuChoices], PRes.ok a) := by
    simp [showMainMenu, getCurrentBranch, gitCall, hb, hm, promptListQ, logLine, hsel2]
  constructor
  · intro hne hret
    have hcnt0 : (executeAction env a).1.countP Ev.isPausePrompt = 0 :=
      countP_zero_of_traceAll (noPause_executeAction env _)
    rcases hE : executeAction env a with ⟨tE, rE⟩
    rw [hE] at hret hcnt0
    simp only at hret hcnt0
    subst hret
    constructor
    · intro s hw
      simp [pauseCount, loopIter, loopCatch, hmenu, hE, hne, waitForContinue, promptInputQ, hw,
        logLine, List.countP_append, List.countP_cons, hcnt0, Ev.isPausePrompt,
        countP_ite_list, handleError_eq]
    · intro e hw htt
      simp [pauseCount, loopIter, loopCatch, hmenu, hE, hne, waitForContinue, promptInputQ, hw, htt,
        logLine, List.countP_append, List.countP_cons, hcnt0, Ev.isPausePrompt,
        countP_ite_list, handleError_eq]
  · intro hsel3
    rw [hsel3] at hmenu
    simp [pauseCount, loopIter, loopCatch, hmenu, executeAction, ACTIONS_STATUS, ACTIONS_COMMIT_PUSH,
      ACTIONS_PULL, ACTIONS_PUSH, ACTIONS_BRANCH_MANAGE, ACTIONS_MERGE,
      ACTIONS_REMOTE_MANAGE, ACTIONS_EXIT, logLine, exitP, List.countP_append,
      List.countP_cons, Ev.isPausePrompt]

/-- Witness for the amended C7: pause counts 1, 2 and 0 at concrete
environments. -/
theorem claim_C7_witness :
    (pauseCount (loopIter envBase).1 = 1) ∧
    (pauseCount (loopIter { envBase with pauseAns := Except.error bootErr }).1 = 2) ∧
    (pauseCount (loopIter { envBase with menuIdx := Except.ok 7 }).1 = 0) :=
  ⟨((claim_C7_pause_policy envBase "main" ACTIONS_STATUS 0 rfl rfl (by decide)).1
      (by decide) rfl).1 "" rfl,
   ((claim_C7_pause_policy { envBase with pauseAns := Except.error bootErr } "main"
      ACTIONS_STATUS 0 rfl rfl (by decide)).1 (by decide) rfl).2 bootErr rfl rfl,
   (claim_C7_pause_policy { envBase with menuIdx := Except.ok 7 } "main" ACTIONS_EXIT 7
      rfl rfl (by decide)).2 rfl⟩

/-- Counterexample to C7 as stated: the status action's handler returns,
yet the pause prompt is presented twice because its first attempt fails
with a non-tty error. -/
theorem claim_C7_counterexample :
    ({ envBase with pauseAns := Except.error bootErr } : Env).pauseAns =
      Except.error bootErr ∧
    bootErr.isTtyError = false ∧
    menuChoices.getD (0 % menuChoices.length) "" = ACTIONS_STATUS ∧
    (executeAction { envBase with pauseAns := Except.error bootErr } ACTIONS_STATUS).2 =
      PRes.ok () ∧
    pauseCount (loopIter { envBase with pauseAns := Except.error bootErr }).1 = 2 :=
  ⟨rfl, rfl, by decide, rfl, by decide⟩

/-- The dispatcher exits the process only through the exit action, and
then with code 0. -/
theorem exec_exit_only (env : Env) (a : String) (c : Nat)
    (h : (executeAction env a).2 = PRes.exit c) : a = ACTIONS_EXIT ∧ c = 0 := by
  unfold executeAction at h
  split_ifs at h with h1 h2 h3 h4 h5 h6 h7 h8
  · rw [ret_showStatus env] at h; exact absurd h (fun hc => PRes.noConfusion hc)
  · rw [ret_commitAndPush env] at h; exact absurd h (fun hc => PRes.noConfusion hc)
  · rw [ret_pullCode env] at h; exact absurd h (fun hc => PRes.noConfusion hc)
  · rw [ret_pushCode env] at h; exact absurd h (fun hc => PRes.noConfusion hc)
  · rw [ret_manageBranches env] at h; exact absurd h (fun hc => PRes.noConfusion hc)
  · rw [ret_mergeBranch env] at h; exact absurd h (fun hc => PRes.noConfusion hc)
  · exact absurd h (noExit_manageRemotes env c)
  · refine ⟨h8, ?_⟩
    simp [logLine, exitP] at h
    omega

/-- One loop iteration ends in normal continuation, exit 0, or exit 1. -/
theorem loopIter_outcomes (env : Env) :
    (loopIter env).2 = PRes.ok () ∨ (loopIter env).2 = PRes.exit 0 ∨
      (loopIter env).2 = PRes.exit 1 := by
  rcases hb : env.branch with eb | cur
  · by_cases ht : eb.isTtyError <;>
      rcases hw : env.pauseAns with ew | sw <;>
        simp [loopIter, loopCatch, showMainMenu, getCurrentBranch, gitCall, hb, ht, hw,
          waitForContinue, promptInputQ, handleError_eq, logLine, exitP]
  · rcases hm : env.menuIdx with em | i
    · by_cases ht : em.isTtyError <;>
        rcases hw : env.pauseAns with ew | sw <;>
          simp [loopIter, loopCatch, showMainMenu, getCurrentBranch, gitCall, promptListQ, hb, hm,
            ht, hw, waitForContinue, promptInputQ, handleError_eq, logLine, exitP]
    · have hmenu : showMainMenu env =
          ([Ev.callBranch, Ev.println ("\n📂 当前分支: " ++ cur ++ "\n"),
            Ev.promptList "action" menuChoices],
           PRes.ok ((menuChoices[i % menuChoices.length]?).getD "")) := by
        simp [showMainMenu, getCurrentBranch, gitCall, hb, hm, promptListQ, logLine]
      have hout := exec_outcome env ((menuChoices[i % menuChoices.length]?).getD "")
      rcases hE : executeAction env ((menuChoices[i % menuChoices.length]?).getD "")
        with ⟨tE, rE⟩
      rw [hE] at hout
      simp at hout
      rcases hout with hok | ⟨e0, herr⟩ | hex
      · subst hok
        by_cases hne : (menuChoices[i % menuChoices.length]?).getD "" = ACTIONS_EXIT
        · rw [hne] at hE
          simp [loopIter, loopCatch, hmenu, hne, hE, logLine]
        · rcases hw : env.pauseAns with ew | sw
          · by_cases ht : ew.isTtyError <;>
              simp [loopIter, loopCatch, hmenu, hE, hne, hw, ht, waitForContinue, promptInputQ,
                handleError_eq, logLine, exitP]
          · simp [loopIter, loopCatch, hmenu, hE, hne, hw, waitForContinue, promptInputQ, logLine]
      · subst herr
        by_cases ht : e0.isTtyError <;>
          rcases hw : env.pauseAns with ew | sw <;>
            simp [loopIter, loopCatch, hmenu, hE, ht, hw, waitForContinue, promptInputQ,
              handleError_eq, logLine, exitP]
      · subst hex
        simp [loopIter, loopCatch, hmenu, hE]

/-- Any finite prefix of the loop ends in continuation, exit 0 or exit 1. -/
theorem runLoop_outcomes (envs : List Env) :
    (runLoop envs).2 = PRes.ok () ∨ (runLoop envs).2 = PRes.exit 0 ∨
      (runLoop envs).2 = PRes.exit 1 := by
  induction envs with
  | nil => exact Or.inl rfl
  | cons env rest ih =>
    have h1 := loopIter_outcomes env
    rcases hL : loopIter env with ⟨tL, rL⟩
    rw [hL] at h1
    simp at h1
    rcases h1 with h | h | h <;> subst h <;> simp [runLoop, hL]
    exact ih

/-- Exit code 0 can only arise from selecting the exit menu action. -/
theorem loopIter_exit0_only (env : Env) (h : (loopIter env).2 = PRes.exit 0) :
    ∃ cur i, env.branch = Except.ok cur ∧ env.menuIdx = Except.ok i ∧
      menuChoices.getD (i % menuChoices.length) "" = ACTIONS_EXIT := by
  rcases hb : env.branch with eb | cur
  · by_cases ht : eb.isTtyError <;>
      rcases hw : env.pauseAns with ew | sw <;>
        simp [loopIter, loopCatch, showMainMenu, getCurrentBranch, gitCall, hb, ht, hw,
          waitForContinue, promptInputQ, handleError_eq, logLine, exitP] at h
  · rcases hm : env.menuIdx with em | i
    · by_cases ht : em.isTtyError <;>
        rcases hw : env.pauseAns with ew | sw <;>
          simp [loopIter, loopCatch, showMainMenu, getCurrentBranch, gitCall, promptListQ, hb, hm,
            ht, hw, waitForContinue, promptInputQ, handleError_eq, logLine, exitP] at h
    · have hmenu : showMainMenu env =
          ([Ev.callBranch, Ev.println ("\n📂 当前分支: " ++ cur ++ "\n"),
            Ev.promptList "action" menuChoices],
           PRes.ok ((menuChoices[i % menuChoices.length]?).getD "")) := by
        simp [showMainMenu, getCurrentBranch, gitCall, hb, hm, promptListQ, logLine]
      have hout := exec_outcome env ((menuChoices[i % menuChoices.length]?).getD "")
      rcases hE : executeAction env ((menuChoices[i % menuChoices.length]?).getD "")
        with ⟨tE, rE⟩
      rw [hE] at hout
      simp at hout
      rcases hout with hok | ⟨e0, herr⟩ | hex
      · subst hok
        by_cases hne : (menuChoices[i % menuChoices.length]?).getD "" = ACTIONS_EXIT
        · exact ⟨cur, i, rfl, rfl, by simpa using hne⟩
        · rcases hw : env.pauseAns with ew | sw
          · by_cases ht : ew.isTtyError <;>
              simp [loopIter, loopCatch, hmenu, hE, hne, hw, ht, waitForContinue, promptInputQ,
                handleError_eq, logLine, exitP] at h
          · simp [loopIter, loopCatch, hmenu, hE, hne, hw, waitForContinue, promptInputQ, logLine] at h
      · subst herr
        by_cases ht : e0.isTtyError <;>
          rcases hw : env.pauseAns with ew | sw <;>
            simp [loopIter, loopCatch, hmenu, hE, ht, hw, waitForContinue, promptInputQ,
              handleError_eq, logLine, exitP] at h
      · subst hex
        have hsel := exec_exit_only env ((menuChoices[i % menuChoices.length]?).getD "") 0
          (by rw [hE])
        exact ⟨cur, i, rfl, rfl, by simpa using hsel.1⟩

/-- Claim C9 (corrected): the process ends only with codes 0 or 1 (or
keeps looping); a false repository check exits 1 with its message; a tty
error reaching the loop's catch exits 1 (in particular a failing
main-menu prompt); exit 0 arises exactly from the exit menu action (with
the farewell printed). The correction: an error in the repository check
itself also exits 1 via the top-level catch, a third condition beyond
the two the claim lists. -/
theorem claim_C9_exit_codes (initEnv : Env) (envs : List Env) :
    ((runMain initEnv envs).2 = PRes.ok () ∨ (runMain initEnv envs).2 = PRes.exit 0 ∨
      (runMain initEnv envs).2 = PRes.exit 1) ∧
    (initEnv.isRepo = Except.ok false →
      (runMain initEnv envs).2 = PRes.exit 1 ∧
      Ev.println "❌ 当前目录不是一个 Git 仓库" ∈ (runMain initEnv envs).1) ∧
    (∀ env e, e.isTtyError = true →
      loopCatch env e = ([Ev.println "❌ 当前环境不支持交互式操作"], PRes.exit 1)) ∧
    (∀ env cur e, env.branch = Except.ok cur → env.menuIdx = Except.error e →
      e.isTtyError = true →
      (loopIter env).2 = PRes.exit 1 ∧
      Ev.println "❌ 当前环境不支持交互式操作" ∈ (loopIter env).1) ∧
    (∀ env, (loopIter env).2 = PRes.exit 0 →
      ∃ cur i, env.branch = Except.ok cur ∧ env.menuIdx = Except.ok i ∧
        menuChoices.getD (i % menuChoices.length) "" = ACTIONS_EXIT) ∧
    (∀ env cur i, env.branch = Except.ok cur → env.menuIdx = Except.ok i →
      menuChoices.getD (i % menuChoices.length) "" = ACTIONS_EXIT →
      (loopIter env).2 = PRes.exit 0 ∧ Ev.println "👋 退出 myGit" ∈ (loopIter env).1) := by
  refine ⟨?_, ?_, ?_, ?_, ?_, ?_⟩
  · rcases hr : initEnv.isRepo with er | b
    · simp [runMain, checkIsRepo, gitCall, hr, logLine, exitP]
    · cases b
      · simp [runMain, checkIsRepo, gitCall, hr, logLine, exitP]
      · have h1 := runLoop_outcomes envs
        rcases hRL : runLoop envs with ⟨tR, rR⟩
        rw [hRL] at h1
        simp at h1
        rcases h1 with h | h | h <;> subst h <;>
          simp [runMain, checkIsRepo, gitCall, hr, hRL, logLine, exitP]
  · intro hrep
    simp [runMain, checkIsRepo, gitCall, hrep, logLine, exitP]
  · exact fun env e het => loopCatch_tty env e het
  · intro env cur e hb hm het
    simp [loopIter, loopCatch, showMainMenu, getCurrentBranch, gitCall, promptListQ,
      hb, hm, het, logLine, exitP]
  · exact fun env h => loopIter_exit0_only env h
  · intro env cur i hb hm hsel
    have hsel2 : (menuChoices[i % menuChoices.length]?).getD "" = ACTIONS_EXIT := by
      simpa using hsel
    have hmenu : showMainMenu env =
        ([Ev.callBranch, Ev.println ("\n📂 当前分支: " ++ cur ++ "\n"),
          Ev.promptList "action" menuChoices], PRes.ok ACTIONS_EXIT) := by
      simp [showMainMenu, getCurrentBranch, gitCall, hb, hm, promptListQ, logLine, hsel2]
    simp [loopIter, loopCatch, hmenu, executeAction, ACTIONS_STATUS, ACTIONS_COMMIT_PUSH,
      ACTIONS_PULL, ACTIONS_PUSH, ACTIONS_BRANCH_MANAGE, ACTIONS_MERGE,
      ACTIONS_REMOTE_MANAGE, ACTIONS_EXIT, logLine, exitP]

/-- Witness for the amended C9: not-a-repository exits 1, the exit
action exits 0, a tty main-menu prompt failure exits 1. -/
theorem claim_C9_witness :
    (runMain { envBase with isRepo := Except.ok false } []).2 = PRes.exit 1 ∧
    (loopIter { envBase with menuIdx := Except.ok 7 }).2 = PRes.exit 0 ∧
    (loopIter { envBase with menuIdx := Except.error ttyErr }).2 = PRes.exit 1 :=
  ⟨((claim_C9_exit_codes { envBase with isRepo := Except.ok false } []).2.1 rfl).1,
   ((claim_C9_exit_codes envBase []).2.2.2.2.2 { envBase with menuIdx := Except.ok 7 }
      "main" 7 rfl rfl (by decide)).1,
   ((claim_C9_exit_codes envBase []).2.2.2.1 { envBase with menuIdx := Except.error ttyErr }
      "main" ttyErr rfl rfl rfl).1⟩

/-- Counterexample to C9 as stated: a failing repository check (neither
the not-a-repository result nor a tty condition) also terminates the
process with exit code 1 through the top-level catch. -/
theorem claim_C9_counterexample :
    ({ envBase with isRepo := Except.error bootErr } : Env).isRepo = Except.error bootErr ∧
    bootErr.isTtyError = false ∧
    (runMain { envBase with isRepo := Except.error bootErr } []).2 = PRes.exit 1 ∧
    Ev.println "❌ 发生未预期的错误:" ∈
      (runMain { envBase with isRepo := Except.error bootErr } []).1 :=
  ⟨rfl, rfl, rfl, by decide⟩
